import Mathlib

/-!
Shallow embedding of the validation and verdict engine of the
Multi-Agent game tester (`src/backend/agents/orchestrator_agent.py` and
`src/backend/agents/executor_agent.py`), together with theorems checking
the natural-language specification against it.

Conventions of the embedding:
* a Python run dictionary is modelled by its only field the engine reads,
  `status`, an `Option String` (`None` ↦ `none`);
* Python truthiness of `r.get("status")` holds exactly for a present,
  non-empty string;
* Python non-negative integer arithmetic is modelled on `Nat`;
  `int((a/b)*100)` on non-negative operands truncates towards zero,
  i.e. `a * 100 / b` in `Nat`, and `max(0, c - 20)` is `Nat` subtraction;
* the `float` returned by the reproducibility scorer is modelled on `ℚ`,
  with `round(x, 2)` modelled as rounding `x * 100` to the nearest
  integer and dividing back.
-/

/-- A single execution attempt, reduced to the one field the verdict
engine reads: `r.get("status")`. -/
structure Run where
  status : Option String
deriving Repr, DecidableEq

/-- The cross-validation record produced by `_cross_agent_validate`,
reduced to the fields the verdict engine reads. -/
structure CrossValidation where
  status : Option String
  agrees_with_primary : Bool
deriving Repr, DecidableEq

/-- The verdict dictionary returned by `_determine_verdict`.  The early
`INCONCLUSIVE` return carries no `pass_count`/`fail_count`/`total_runs`
keys, hence the `Option` on `counts`. -/
structure Verdict where
  result : String
  confidence : Nat
  reason : String
  counts : Option (Nat × Nat × Nat)
deriving Repr, DecidableEq

/-- Python truthiness filter of `[r.get("status") for r in runs if r.get("status")]`:
keeps a status that is present and non-empty. -/
def truthyStatus : Option String → Option String
  | none => none
  | some s => if s = "" then none else some s

/-- `statuses = [r.get("status") for r in runs if r.get("status")]`. -/
def validStatuses (runs : List Run) : List String :=
  runs.filterMap (fun r => truthyStatus r.status)

/-- The classification block of `_determine_verdict` before the
cross-validation adjustment: `(result, confidence, reason)`. -/
def baseClassification (statuses : List String) : String × Nat × String :=
  let passed := statuses.count "passed"
  let failed := statuses.count "failed"
  let total := statuses.length
  if passed = total then
    ("PASS", 100, "All " ++ toString total ++ " runs passed")
  else if failed = total then
    ("FAIL", 100, "All " ++ toString total ++ " runs failed")
  else if failed < passed then
    ("FLAKY", passed * 100 / total,
      "Inconsistent: " ++ toString passed ++ "/" ++ toString total ++ " passed")
  else
    ("FAIL", failed * 100 / total,
      "Majority failed: " ++ toString failed ++ "/" ++ toString total)

/-- The cross-validation adjustment block of `_determine_verdict`,
acting on `(result, confidence, reason)`. -/
def crossAdjust (cross : CrossValidation) :
    String × Nat × String → String × Nat × String :=
  fun (result, confidence, reason) =>
    if cross.agrees_with_primary then
      (result, min 100 (confidence + 10), reason)
    else
      let confidence := confidence - 20
      if result = "PASS" then
        ("FLAKY", confidence, reason ++ " (cross-validation disagreement)")
      else
        (result, confidence, reason)

/-- `OrchestratorAgent._determine_verdict(runs, cross_validation)`. -/
def determine_verdict (runs : List Run) (cross : CrossValidation) : Verdict :=
  let statuses := validStatuses runs
  if statuses.isEmpty then
    { result := "INCONCLUSIVE", confidence := 0
      reason := "No valid runs completed", counts := none }
  else
    let passed := statuses.count "passed"
    let failed := statuses.count "failed"
    let total := statuses.length
    let (result, confidence, reason) := crossAdjust cross (baseClassification statuses)
    { result := result, confidence := confidence, reason := reason
      counts := some (passed, failed, total) }

/-- The agreement test of `_cross_agent_validate`:
`all(s == cross_status for s in [r.get("status") for r in primary_results])`. -/
def crossAgreement (primary_results : List Run) (cross_status : Option String) : Bool :=
  (primary_results.map (·.status)).all (fun s => s == cross_status)

/-- `Counter(statuses).most_common(1)[0][1]`: the multiplicity of the most
frequent element of the list. -/
def mostCommonCount (statuses : List (Option String)) : Nat :=
  (statuses.map (fun s => statuses.count s)).foldr max 0

/-- Python `round(x, 2)` on the exact rational value: round `x * 100` to
the nearest integer and scale back.  (Midpoints, where Python rounds half
to even, do not arise for the inputs in this development.) -/
def round2 (x : ℚ) : ℚ :=
  (⌊x * 100 + 1 / 2⌋ : ℚ) / 100

/-- `OrchestratorAgent._calculate_reproducibility(runs)`.  Note that the
statuses list here is unfiltered (`[r.get("status") for r in runs]`), so a
missing status participates in the count. -/
def calculate_reproducibility (runs : List Run) : ℚ :=
  if runs.isEmpty then 0
  else
    let statuses := runs.map (·.status)
    if statuses.isEmpty then 0
    else round2 ((mostCommonCount statuses : ℚ) / statuses.length * 100)

/-- The per-test record handed to `_record_for_learning`, reduced to the
keys it reads (`results.get("verdict", {})` and
`results.get("reproducibility", 0)`; missing keys are `none`). -/
structure TestResults where
  verdict : Option Verdict
  reproducibility : Option ℚ
deriving Repr, DecidableEq

/-- The guard of `_record_for_learning` deciding whether
`knowledge_base.add_test_result` is invoked:
`verdict == "PASS" and reproducibility >= 80`, with
`verdict = results.get("verdict", {}).get("result", "UNKNOWN")` and
`reproducibility = results.get("reproducibility", 0)`. -/
def recordsForLearning (results : TestResults) : Bool :=
  let verdict := (results.verdict.map (·.result)).getD "UNKNOWN"
  let reproducibility := results.reproducibility.getD 0
  verdict == "PASS" && decide (80 ≤ reproducibility)

/-- The status state machine of `ExecutorAgent.execute_test`'s step loop:
starts at `"running"`, marks `"failed"` and breaks at the first failing
step (`_execute_step` never raises; it reports success as a boolean here). -/
def runStepsStatus : List Bool → String
  | [] => "running"
  | ok :: rest => if ok then runStepsStatus rest else "failed"

/-- The status field of the outcome of `ExecutorAgent.execute_test`, as a
function of the per-step outcomes and of whether the final
`artifact_capture.capture_all` call succeeds.  The `except` clause catches
a raising capture and overwrites the status with `"error"`. -/
def execute_test_status (steps : List Bool) (finalCaptureOk : Bool) : String :=
  let st := runStepsStatus steps
  let st := if st = "running" then "passed" else st
  if finalCaptureOk then st else "error"

/-! ### Helper lemmas -/

lemma validStatuses_eq_nil (runs : List Run) (h : ∀ r ∈ runs, r.status = none) :
    validStatuses runs = [] := by
  simp only [validStatuses, List.filterMap_eq_nil_iff]
  intro r hr
  simp [truthyStatus, h r hr]

lemma determine_verdict_of_ne_nil (runs : List Run) (cross : CrossValidation)
    (h : validStatuses runs ≠ []) :
    determine_verdict runs cross =
      { result := (crossAdjust cross (baseClassification (validStatuses runs))).1
        confidence := (crossAdjust cross (baseClassification (validStatuses runs))).2.1
        reason := (crossAdjust cross (baseClassification (validStatuses runs))).2.2
        counts := some ((validStatuses runs).count "passed",
          (validStatuses runs).count "failed", (validStatuses runs).length) } := by
  have hf : (validStatuses runs).isEmpty = false := by
    simpa [List.isEmpty_iff] using h
  simp [determine_verdict, hf]

lemma baseClassification_confidence_le (statuses : List String) (h : statuses ≠ []) :
    (baseClassification statuses).2.1 ≤ 100 := by
  have hlen : 0 < statuses.length := List.length_pos.mpr h
  have hdiv : ∀ k : ℕ, k ≤ statuses.length → k * 100 / statuses.length ≤ 100 := by
    intro k hk
    calc k * 100 / statuses.length
        ≤ statuses.length * 100 / statuses.length :=
          Nat.div_le_div_right (Nat.mul_le_mul_right _ hk)
      _ = 100 := Nat.mul_div_cancel_left 100 hlen
  unfold baseClassification
  dsimp only
  split_ifs <;>
    simp [hdiv _ (List.count_le_length _ _)]

lemma crossAdjust_confidence_le (cross : CrossValidation) (t : String × Nat × String)
    (h : t.2.1 ≤ 100) : (crossAdjust cross t).2.1 ≤ 100 := by
  obtain ⟨r, c, s⟩ := t
  simp only [crossAdjust]
  split_ifs <;> simp_all <;> omega

/-! ### Theorems for the claims -/

/-- C4: for every run set and cross-validation input, the confidence of the
verdict returned by `_determine_verdict` lies in `[0, 100]`. -/
theorem determine_verdict_confidence_in_range (runs : List Run) (cross : CrossValidation) :
    0 ≤ (determine_verdict runs cross).confidence ∧
      (determine_verdict runs cross).confidence ≤ 100 := by
  refine ⟨Nat.zero_le _, ?_⟩
  by_cases h : validStatuses runs = []
  · simp [determine_verdict, h]
  · rw [determine_verdict_of_ne_nil runs cross h]
    exact crossAdjust_confidence_le _ _ (baseClassification_confidence_le _ h)

/-- C7: if no run carries a non-null status, `_determine_verdict` returns
exactly the `INCONCLUSIVE` verdict with confidence 0 and reason
"No valid runs completed", regardless of the cross-validation input. -/
theorem determine_verdict_no_valid_runs (runs : List Run) (cross : CrossValidation)
    (h : ∀ r ∈ runs, r.status = none) :
    determine_verdict runs cross =
      { result := "INCONCLUSIVE", confidence := 0
        reason := "No valid runs completed", counts := none } := by
  simp [determine_verdict, validStatuses_eq_nil runs h]

/-- Witness for C7 at `runs = [{status: null}]` with an agreeing cross input. -/
theorem determine_verdict_no_valid_runs_witness :
    (∀ r ∈ ([⟨none⟩] : List Run), r.status = none) ∧
      determine_verdict [⟨none⟩] ⟨some "passed", true⟩ =
        { result := "INCONCLUSIVE", confidence := 0
          reason := "No valid runs completed", counts := none } :=
  ⟨by decide, determine_verdict_no_valid_runs _ _ (by decide)⟩

/-- C10: a non-empty run set whose runs all lack a status is judged
`INCONCLUSIVE` by the verdict engine while the reproducibility scorer
gives it a perfect 100.0. -/
theorem inconclusive_with_perfect_reproducibility (cross : CrossValidation) :
    ([⟨none⟩, ⟨none⟩] : List Run) ≠ [] ∧
      (determine_verdict [⟨none⟩, ⟨none⟩] cross).result = "INCONCLUSIVE" ∧
      calculate_reproducibility [⟨none⟩, ⟨none⟩] = 100 := by
  refine ⟨by simp, ?_, ?_⟩
  · simp [determine_verdict, validStatuses, truthyStatus]
  · have hm : mostCommonCount [none, none] = 2 := by decide
    norm_num [calculate_reproducibility, round2, List.map, hm]

/-- C6: `_cross_agent_validate` sets `agrees_with_primary` to true iff the
cross attempt's status equals every primary run's status (internal
unanimity is required, and a single outlier forces disagreement even when
the cross attempt matches the majority). -/
theorem crossAgreement_iff_unanimous :
    (∀ (primary : List Run) (cs : Option String),
      crossAgreement primary cs = true ↔ ∀ r ∈ primary, r.status = cs) ∧
    crossAgreement [⟨some "passed"⟩, ⟨some "passed"⟩, ⟨some "failed"⟩]
      (some "passed") = false := by
  refine ⟨fun primary cs => ?_, by decide⟩
  simp [crossAgreement, List.all_eq_true, List.forall_mem_map]

/-- Witness for C6: a unanimous primary set matching the cross attempt. -/
theorem crossAgreement_iff_unanimous_witness :
    crossAgreement [⟨some "passed"⟩] (some "passed") = true :=
  (crossAgreement_iff_unanimous.1 _ _).mpr (by decide)

lemma runStepsStatus_all_true (steps : List Bool) (h : steps.all id = true) :
    runStepsStatus steps = "running" := by
  induction steps with
  | nil => rfl
  | cons b rest ih =>
    simp only [List.all_cons, Bool.and_eq_true, id_eq] at h
    simp [runStepsStatus, h.1, ih h.2]

/-- C8 counterexample: with one passing step and a raising final artifact
capture, `execute_test` returns status "error", not "passed". -/
theorem execute_test_capture_failure_counterexample :
    execute_test_status [true] false = "error" ∧
      execute_test_status [true] false ≠ "passed" := by
  decide

/-- C8 as amended: when every step executes without failure, the attempt's
status is "passed" if the final artifact capture succeeds, but a raising
final artifact capture overwrites it with "error". -/
theorem execute_test_capture_failure_sets_error (steps : List Bool)
    (h : steps.all id = true) :
    execute_test_status steps true = "passed" ∧
      execute_test_status steps false = "error" := by
  have hr := runStepsStatus_all_true steps h
  exact ⟨by simp [execute_test_status, hr], by simp [execute_test_status, hr]⟩

/-- Witness for the amended C8 at two passing steps. -/
theorem execute_test_capture_failure_sets_error_witness :
    ([true, true] : List Bool).all id = true ∧
      (execute_test_status [true, true] true = "passed" ∧
        execute_test_status [true, true] false = "error") :=
  ⟨by decide, execute_test_capture_failure_sets_error [true, true] (by decide)⟩

/-- C9: `_record_for_learning` writes to the knowledge base iff the
verdict result is "PASS" and the reproducibility is at least 80. -/
theorem recordsForLearning_iff (v : Verdict) (rep : ℚ) :
    recordsForLearning ⟨some v, some rep⟩ = true ↔
      v.result = "PASS" ∧ 80 ≤ rep := by
  simp [recordsForLearning, Bool.and_eq_true, decide_eq_true_iff]

/-- Witness for C9: a PASS verdict with reproducibility 90 is recorded. -/
theorem recordsForLearning_iff_witness :
    recordsForLearning ⟨some ⟨"PASS", 100, "All 3 runs passed", none⟩, some 90⟩ = true :=
  (recordsForLearning_iff _ _).mpr ⟨rfl, by norm_num⟩

lemma crossAdjust_agree (cross : CrossValidation) (r : String) (c : Nat) (msg : String)
    (h : cross.agrees_with_primary = true) :
    crossAdjust cross (r, c, msg) = (r, min 100 (c + 10), msg) := by
  simp [crossAdjust, h]

lemma crossAdjust_of_ne_pass (cross : CrossValidation) (r : String) (c : Nat) (msg : String)
    (h : r ≠ "PASS") :
    crossAdjust cross (r, c, msg) =
      (r, if cross.agrees_with_primary then min 100 (c + 10) else c - 20, msg) := by
  by_cases hag : cross.agrees_with_primary <;> simp [crossAdjust, hag, h]

lemma crossAdjust_pass_disagree (cross : CrossValidation) (c : Nat) (msg : String)
    (h : cross.agrees_with_primary = false) :
    crossAdjust cross ("PASS", c, msg) =
      ("FLAKY", c - 20, msg ++ " (cross-validation disagreement)") := by
  simp [crossAdjust, h]

lemma baseClassification_flaky (statuses : List String)
    (h1 : statuses.count "failed" < statuses.count "passed")
    (h2 : statuses.count "passed" ≠ statuses.length) :
    ∃ msg, baseClassification statuses =
      ("FLAKY", statuses.count "passed" * 100 / statuses.length, msg) := by
  have hfl : statuses.count "failed" ≠ statuses.length := by
    have := List.count_le_length "passed" statuses
    omega
  refine ⟨"Inconsistent: " ++ toString (statuses.count "passed") ++ "/" ++
    toString statuses.length ++ " passed", ?_⟩
  unfold baseClassification
  dsimp only
  rw [if_neg h2, if_neg hfl, if_pos h1]

lemma baseClassification_no_pass_no_fail (statuses : List String) (h : statuses ≠ [])
    (hp : statuses.count "passed" = 0) (hf : statuses.count "failed" = 0) :
    ∃ msg, baseClassification statuses = ("FAIL", 0, msg) := by
  have hlen : 0 < statuses.length := List.length_pos.mpr h
  have hc : statuses.count "failed" * 100 / statuses.length = 0 := by
    rw [hf]; simp
  refine ⟨"Majority failed: " ++ toString (statuses.count "failed") ++ "/" ++
    toString statuses.length, ?_⟩
  unfold baseClassification
  dsimp only
  rw [if_neg (by omega), if_neg (by omega), if_neg (by omega), hc]

/-- C1 counterexample: for `runs = [passed, passed, failed]` with a
disagreeing cross-validation the code truncates `(2/3)*100` to 66 and
returns final confidence 46, not the 47 the claim computes via rounding. -/
theorem verdict_flaky_confidence_not_rounded :
    (determine_verdict [⟨some "passed"⟩, ⟨some "passed"⟩, ⟨some "failed"⟩]
        ⟨some "failed", false⟩).confidence = 46 ∧
      (determine_verdict [⟨some "passed"⟩, ⟨some "passed"⟩, ⟨some "failed"⟩]
        ⟨some "failed", false⟩).confidence ≠ 47 := by
  decide

/-- C1 as amended: when `passed > failed` and not all runs passed, the
verdict is FLAKY and the base confidence is the truncation
`passed * 100 / total` (66 for 2/3, not the rounded 67); the final
confidence is that value raised by the agreement bonus or lowered by the
disagreement penalty (46 for the concrete scenario, not 47). -/
theorem verdict_flaky_truncated_confidence (runs : List Run) (cross : CrossValidation)
    (h1 : (validStatuses runs).count "failed" < (validStatuses runs).count "passed")
    (h2 : (validStatuses runs).count "passed" ≠ (validStatuses runs).length) :
    (determine_verdict runs cross).result = "FLAKY" ∧
      (determine_verdict runs cross).confidence =
        (if cross.agrees_with_primary then
          min 100 ((validStatuses runs).count "passed" * 100 / (validStatuses runs).length + 10)
        else
          (validStatuses runs).count "passed" * 100 / (validStatuses runs).length - 20) := by
  have hne : validStatuses runs ≠ [] := by
    intro h0
    rw [h0] at h1
    simp at h1
  obtain ⟨msg, hb⟩ := baseClassification_flaky _ h1 h2
  rw [determine_verdict_of_ne_nil runs cross hne, hb,
    crossAdjust_of_ne_pass cross _ _ _ (by decide)]
  exact ⟨rfl, rfl⟩

/-- Witness for the amended C1 at the concrete scenario from the spec. -/
theorem verdict_flaky_truncated_confidence_witness :
    (determine_verdict [⟨some "passed"⟩, ⟨some "passed"⟩, ⟨some "failed"⟩]
        ⟨some "failed", false⟩).result = "FLAKY" ∧
      (determine_verdict [⟨some "passed"⟩, ⟨some "passed"⟩, ⟨some "failed"⟩]
        ⟨some "failed", false⟩).confidence = 46 := by
  have h := verdict_flaky_truncated_confidence
    [⟨some "passed"⟩, ⟨some "passed"⟩, ⟨some "failed"⟩] ⟨some "failed", false⟩
    (by decide) (by decide)
  refine ⟨h.1, ?_⟩
  rw [h.2]
  decide

/-- C2 counterexample: a run set whose only attempt has status "error" is
judged FAIL by `_determine_verdict` ("error" is a truthy status and passes
the filter), not INCONCLUSIVE as claimed. -/
theorem error_only_runs_not_inconclusive :
    (determine_verdict [⟨some "error"⟩] ⟨some "error", false⟩).result = "FAIL" ∧
      (determine_verdict [⟨some "error"⟩] ⟨some "error", false⟩).result ≠
        "INCONCLUSIVE" := by
  decide

/-- C2 as amended: for every non-empty run set whose every attempt has
status "error", the statuses survive the truthiness filter, both the pass
and fail counts are 0, and the majority-failed branch yields result FAIL
with base confidence 0 (10 after an agreement bonus). -/
theorem error_only_runs_yield_fail (runs : List Run) (cross : CrossValidation)
    (hne : runs ≠ []) (herr : ∀ r ∈ runs, r.status = some "error") :
    (determine_verdict runs cross).result = "FAIL" ∧
      (determine_verdict runs cross).confidence =
        (if cross.agrees_with_primary then 10 else 0) := by
  have hmem : ∀ s ∈ validStatuses runs, s = "error" := by
    intro s hs
    simp only [validStatuses, List.mem_filterMap] at hs
    obtain ⟨r, hr, hsr⟩ := hs
    rw [herr r hr] at hsr
    simp only [truthyStatus] at hsr
    rw [if_neg (by decide)] at hsr
    exact (Option.some_injective _ hsr).symm
  have hne' : validStatuses runs ≠ [] := by
    obtain ⟨r, rest, rfl⟩ := List.exists_cons_of_ne_nil hne
    have h0 : r.status = some "error" := herr r (List.mem_cons_self r rest)
    simp [validStatuses, List.filterMap_cons, h0, truthyStatus]
  have hp : (validStatuses runs).count "passed" = 0 := by
    rw [List.count_eq_zero]
    intro hmem'
    exact absurd (hmem _ hmem') (by decide)
  have hf : (validStatuses runs).count "failed" = 0 := by
    rw [List.count_eq_zero]
    intro hmem'
    exact absurd (hmem _ hmem') (by decide)
  obtain ⟨msg, hb⟩ := baseClassification_no_pass_no_fail _ hne' hp hf
  rw [determine_verdict_of_ne_nil runs cross hne', hb,
    crossAdjust_of_ne_pass cross _ _ _ (by decide)]
  refine ⟨rfl, ?_⟩
  by_cases hag : cross.agrees_with_primary <;> simp [hag]

/-- Witness for the amended C2 at a single error run with agreeing cross. -/
theorem error_only_runs_yield_fail_witness :
    (([⟨some "error"⟩] : List Run) ≠ [] ∧
        ∀ r ∈ ([⟨some "error"⟩] : List Run), r.status = some "error") ∧
      ((determine_verdict [⟨some "error"⟩] ⟨some "error", true⟩).result = "FAIL" ∧
        (determine_verdict [⟨some "error"⟩] ⟨some "error", true⟩).confidence = 10) := by
  refine ⟨⟨by decide, by decide⟩, ?_⟩
  have h := error_only_runs_yield_fail [⟨some "error"⟩] ⟨some "error", true⟩
    (by decide) (by decide)
  exact ⟨h.1, by rw [h.2]; decide⟩

/-- C3: the cross-validation adjustment of `_determine_verdict` (on a run
set with at least one truthy status): agreement raises the confidence by
10 capped at 100; disagreement lowers it by 20 floored at 0 (`Nat`
subtraction is exactly `max(0, c - 20)` here), downgrades a base PASS to
FLAKY with " (cross-validation disagreement)" appended to the reason, and
leaves the kind of any non-PASS base result (FAIL, FLAKY) unchanged. -/
theorem cross_validation_adjustment (runs : List Run) (cross : CrossValidation)
    (h : validStatuses runs ≠ []) :
    (cross.agrees_with_primary = true →
      (determine_verdict runs cross).result =
          (baseClassification (validStatuses runs)).1 ∧
        (determine_verdict runs cross).confidence =
          min 100 ((baseClassification (validStatuses runs)).2.1 + 10) ∧
        (determine_verdict runs cross).reason =
          (baseClassification (validStatuses runs)).2.2) ∧
    (cross.agrees_with_primary = false →
      (determine_verdict runs cross).confidence =
          (baseClassification (validStatuses runs)).2.1 - 20 ∧
        ((baseClassification (validStatuses runs)).1 = "PASS" →
          (determine_verdict runs cross).result = "FLAKY" ∧
            (determine_verdict runs cross).reason =
              (baseClassification (validStatuses runs)).2.2 ++
                " (cross-validation disagreement)") ∧
        ((baseClassification (validStatuses runs)).1 ≠ "PASS" →
          (determine_verdict runs cross).result =
              (baseClassification (validStatuses runs)).1 ∧
            (determine_verdict runs cross).reason =
              (baseClassification (validStatuses runs)).2.2)) := by
  rcases hbc : baseClassification (validStatuses runs) with ⟨r, c, msg⟩
  rw [determine_verdict_of_ne_nil runs cross h, hbc]
  constructor
  · intro hag
    rw [crossAdjust_agree cross r c msg hag]
    exact ⟨rfl, rfl, rfl⟩
  · intro hag
    by_cases hr : r = "PASS"
    · subst hr
      rw [crossAdjust_pass_disagree cross c msg hag]
      exact ⟨rfl, fun _ => ⟨rfl, rfl⟩, fun hne2 => absurd rfl hne2⟩
    · rw [crossAdjust_of_ne_pass cross r c msg hr, hag]
      exact ⟨rfl, fun heq => absurd heq hr, fun _ => ⟨rfl, rfl⟩⟩

/-- Witness for C3 at the spec scenario `runs = [passed, passed, passed]`
with a disagreeing cross attempt: PASS is downgraded to FLAKY, the
confidence drops from 100 to 80, and the reason gains the suffix. -/
theorem cross_validation_adjustment_witness :
    (determine_verdict [⟨some "passed"⟩, ⟨some "passed"⟩, ⟨some "passed"⟩]
        ⟨some "failed", false⟩).result = "FLAKY" ∧
      (determine_verdict [⟨some "passed"⟩, ⟨some "passed"⟩, ⟨some "passed"⟩]
        ⟨some "failed", false⟩).confidence = 80 ∧
      (determine_verdict [⟨some "passed"⟩, ⟨some "passed"⟩, ⟨some "passed"⟩]
        ⟨some "failed", false⟩).reason =
        "All 3 runs passed (cross-validation disagreement)" := by
  have h := (cross_validation_adjustment
    [⟨some "passed"⟩, ⟨some "passed"⟩, ⟨some "passed"⟩] ⟨some "failed", false⟩
    (by decide)).2 rfl
  have hbase : baseClassification (validStatuses
      [⟨some "passed"⟩, ⟨some "passed"⟩, ⟨some "passed"⟩]) =
      ("PASS", 100, "All 3 runs passed") := by decide
  rw [hbase] at h
  have hdown := h.2.1 rfl
  exact ⟨hdown.1, by rw [h.1]; decide, by rw [hdown.2]; decide⟩

/-- C5: the reproducibility scorer returns the modal status count over
the (unfiltered) status multiset as a percentage rounded to two decimals:
0.0 on the empty run set, 66.67 on `[passed, passed, failed]`, 100.0 on
five failed runs, and in general `round2 (100 * m / len)` where `m` is
the multiplicity of the most frequent status. -/
theorem reproducibility_modal_fraction :
    calculate_reproducibility [] = 0 ∧
    calculate_reproducibility [⟨some "passed"⟩, ⟨some "passed"⟩, ⟨some "failed"⟩] =
      6667 / 100 ∧
    calculate_reproducibility (List.replicate 5 ⟨some "failed"⟩) = 100 ∧
    ∀ runs : List Run, runs ≠ [] →
      calculate_reproducibility runs =
        round2 (100 * (mostCommonCount (runs.map (·.status)) : ℚ) / runs.length) := by
  refine ⟨rfl, ?_, ?_, ?_⟩
  · have hm : mostCommonCount [some "passed", some "passed", some "failed"] = 2 := by
      decide
    norm_num [calculate_reproducibility, round2, List.map, hm]
  · have hm : mostCommonCount (List.replicate 5 (some "failed")) = 5 := by decide
    norm_num [calculate_reproducibility, round2, hm]
  · intro runs hne
    have h1 : runs.isEmpty = false := by simpa [List.isEmpty_iff] using hne
    have h2 : (runs.map (·.status)).isEmpty = false := by
      simp [List.isEmpty_iff, hne]
    simp only [calculate_reproducibility, h1, h2, Bool.false_eq_true, if_false,
      List.length_map]
    congr 1
    ring

/-- Witness for C5's general clause at a one-run set. -/
theorem reproducibility_modal_fraction_witness :
    ([⟨some "passed"⟩] : List Run) ≠ [] ∧
      calculate_reproducibility [⟨some "passed"⟩] =
        round2 (100 * (mostCommonCount (([⟨some "passed"⟩] : List Run).map
          (·.status)) : ℚ) / ([⟨some "passed"⟩] : List Run).length) :=
  ⟨by decide, reproducibility_modal_fraction.2.2.2 _ (by decide)⟩

